import Mathlib

/-!
Shallow embedding of the finance-tracker sync/notify core, translated from
the Rust sources (`src/notifications.rs`, `src/llm.rs`, `src/cache.rs`,
`src/transactions.rs`, `src/main.rs`, `src/settings.rs`,
`src/llm_response.rs`).  External effects (HTTP sends, sleeps, file I/O)
are modelled by oracle functions and by traces of the effect events the
code would perform, so that control flow — which sends are attempted, in
which order, and when the loop aborts — is preserved exactly.
-/

namespace FinanceTracker

/-- Runtime settings, from `src/settings.rs` (struct `Settings`).
Optional environment variables become `Option String`; `ntfy_server` has a
default and is a plain `String`.  Fields not used by any claim
(`simplefin_bridge_url`, `openai_*`) are omitted from the embedding since
no modelled function reads them. -/
structure Settings where
  twilio_account_sid : Option String
  twilio_auth_token : Option String
  twilio_from_phone : Option String
  twilio_to_phones : Option String
  mailer_url : Option String
  mailer_from : Option String
  mailer_to : Option String
  ntfy_server : String
  ntfy_topic : Option String
deriving Repr, DecidableEq

/-- Embeds `NotificationType` from `src/settings.rs`. -/
inductive NotificationType where
  | Sms
  | Email
  | Ntfy
deriving Repr, DecidableEq

/-- Embeds `NtfyNotificationType` from `src/notifications.rs`. -/
inductive NtfyNotificationType where
  | Info
  | Warning
deriving Repr, DecidableEq

/-- Model of Rust `str::split(c)`: the list of pieces between occurrences
of `c`, empty pieces included (`"".split(c)` yields one empty piece). -/
def splitOnChar (c : Char) : List Char → List (List Char)
  | [] => [[]]
  | a :: as =>
    if a = c then [] :: splitOnChar c as
    else
      match splitOnChar c as with
      | [] => [[a]]
      | g :: gs => (a :: g) :: gs

/-- Model of Rust `str::trim`: drop leading and trailing whitespace. -/
def trimChars (s : List Char) : List Char :=
  ((s.dropWhile Char.isWhitespace).reverse.dropWhile Char.isWhitespace).reverse

/-- Rust `str::trim` on `String`. -/
def rust_trim (s : String) : String := String.mk (trimChars s.data)

/-- Rust `str::split(',')` on `String`. -/
def rust_split_comma (s : String) : List String :=
  (splitOnChar ',' s.data).map String.mk

/-- Embeds `has_twilio_settings` from `src/notifications.rs` lines 222-227. -/
def has_twilio_settings (settings : Settings) : Bool :=
  settings.twilio_to_phones.isSome
    && settings.twilio_account_sid.isSome
    && settings.twilio_auth_token.isSome
    && settings.twilio_from_phone.isSome

/-- Embeds `has_mailer_settings` from `src/notifications.rs` lines 229-231. -/
def has_mailer_settings (settings : Settings) : Bool :=
  settings.mailer_to.isSome && settings.mailer_url.isSome && settings.mailer_from.isSome

/-- Embeds `has_ntfy_settings` from `src/notifications.rs` lines 233-235. -/
def has_ntfy_settings (settings : Settings) : Bool :=
  settings.ntfy_topic.isSome

/-- The channel-specific "is configured" predicate that
`dispatch_notifications` evaluates for each `NotificationType`, matching
the three `if has_*_settings(settings)` guards in
`src/notifications.rs` lines 246-268. -/
def channel_configured (settings : Settings) : NotificationType → Bool
  | NotificationType.Ntfy => has_ntfy_settings settings
  | NotificationType.Email => has_mailer_settings settings
  | NotificationType.Sms => has_twilio_settings settings

/-- Observable per-channel event of one dispatch run: the channel's send
was invoked and succeeded, was invoked and failed, or the channel was
skipped as unconfigured (the code's `println!("... Skipping ...")`
branch). -/
inductive ChannelOutcome where
  | sent (c : NotificationType)
  | failed (c : NotificationType)
  | skipped (c : NotificationType)
deriving Repr, DecidableEq

/-- Embeds `dispatch_notifications` from `src/notifications.rs` lines 238-272.
The oracle `send c` gives the outcome of channel `c`'s send operation
(`true` = the underlying `send_*` call returns `Ok`).  The Rust loop
applies `?` to each send result, so a failing configured channel makes the
whole function return `Err` immediately; this is mirrored by returning the
trace of events so far together with `false` and not recursing.  Result:
(ordered trace of per-channel events, `true` iff the function returns
`Ok(())`). -/
def dispatch_notifications (settings : Settings) (send : NotificationType → Bool) :
    List NotificationType → List ChannelOutcome × Bool
  | [] => ([], true)
  | t :: ts =>
    if channel_configured settings t then
      if send t then
        let r := dispatch_notifications settings send ts
        (ChannelOutcome.sent t :: r.1, r.2)
      else
        ([ChannelOutcome.failed t], false)
    else
      let r := dispatch_notifications settings send ts
      (ChannelOutcome.skipped t :: r.1, r.2)

/-- Recipient loop of `send_twilio_sms`, from `src/notifications.rs`
lines 27-73: for each comma-separated piece, the trimmed phone number is
sent to; `Ok` with a success status continues the loop, any other outcome
returns `Err(SyncError::TwilioError(..))` at once.  The oracle
`send p` is `true` iff the physical send to trimmed recipient `p`
succeeds.  Result: (trimmed recipients actually attempted in order,
`true` iff the loop completes and the function returns `Ok(())`). -/
def twilio_sms_go (send : String → Bool) : List String → List String × Bool
  | [] => ([], true)
  | p :: ps =>
    if send (rust_trim p) then
      let r := twilio_sms_go send ps
      (rust_trim p :: r.1, r.2)
    else
      ([rust_trim p], false)

/-- Embeds `send_twilio_sms` from `src/notifications.rs` lines 12-77.  The code
calls `.unwrap()` on `settings.twilio_to_phones`; `none` models the panic
on an unset value.  The recipient list is the `split(',')` of the setting,
as in line 27. -/
def send_twilio_sms (settings : Settings) (send : String → Bool) :
    Option (List String × Bool) :=
  match settings.twilio_to_phones with
  | none => none
  | some phones => some (twilio_sms_go send (rust_split_comma phones))

/-- The server part of the ntfy URL: `src/notifications.rs` lines 169-173
(`settings.ntfy_server` unless blank, else the `https` default). -/
def effective_ntfy_server (settings : Settings) : String :=
  if rust_trim settings.ntfy_server = "" then "https://ntfy.sh" else settings.ntfy_server

/-- Embeds `send_ntfy_notification` from `src/notifications.rs` lines 161-219,
reduced to the URL the summary text is posted to (the only observable a
claim mentions).  The code unwraps `settings.ntfy_topic` (`none` models
the panic), trims it, appends `"-warning"` for the `Warning` type
(lines 176-181), and posts to `{server}/{topic}` (line 182). -/
def send_ntfy_notification (settings : Settings) (ntype : NtfyNotificationType) :
    Option String :=
  match settings.ntfy_topic with
  | none => none
  | some topic =>
    let ntfy_topic :=
      match ntype with
      | NtfyNotificationType.Info => rust_trim topic
      | NtfyNotificationType.Warning => rust_trim topic ++ "-warning"
    some (effective_ntfy_server settings ++ "/" ++ ntfy_topic)

/-- Embeds `ChatMessage` from `src/llm_response.rs` (the `serde_json::Value`
field becomes `Option String`). -/
structure ChatMessage where
  content : String
  refusal : Option String
  role : String
deriving Repr, DecidableEq

/-- Embeds `Choice` from `src/llm_response.rs`. -/
structure Choice where
  finish_reason : String
  index : Nat
  logprobs : Option String
  message : ChatMessage
  native_finish_reason : String
deriving Repr, DecidableEq

/-- Embeds `Usage` from `src/llm_response.rs`. -/
structure Usage where
  completion_tokens : Nat
  prompt_tokens : Nat
  total_tokens : Nat
deriving Repr, DecidableEq

/-- Embeds `LLMChatResponse` from `src/llm_response.rs`.  A response body that
deserializes must provide every field, `choices` possibly as an empty
list. -/
structure LLMChatResponse where
  id : String
  object : String
  created : Nat
  model : String
  provider : String
  choices : List Choice
  usage : Usage
deriving Repr, DecidableEq

/-- The retry loop of `get_llm_response`, `src/llm.rs` lines 104-146.
The oracle `net attempt` is the outcome of the network call of the given
attempt number (counted from 1): `some resp` when the call returns and the
body deserializes into `LLMChatResponse`, `none` when the request errors
or the body fails to deserialize — both failure arms of the Rust `match`
fall through to the same retry check.  Result:
(the `sleep` durations in ms performed in order, the number of network
calls issued, `Except.ok` the parsed response that broke the loop or
`Except.error` after exhausting retries). -/
def llm_retry (net : Nat → Option LLMChatResponse)
    (max_retries attempt delay_ms : Nat) :
    List Nat × Nat × Except String LLMChatResponse :=
  match net attempt with
  | some resp => ([], 1, Except.ok resp)
  | none =>
    if _h : max_retries ≤ attempt then
      ([], 1, Except.error "Max retries reached")
    else
      let r := llm_retry net max_retries (attempt + 1) (delay_ms * 2)
      (delay_ms :: r.1, r.2.1 + 1, r.2.2)
termination_by max_retries - attempt
decreasing_by simp_wf; omega

/-- Embeds `get_llm_response` from `src/llm.rs` lines 70-160: run the retry loop
with `max_retries = 50`, `attempt` starting at 0 and incremented at loop
top (so the first call is attempt 1) and `delay_ms = 500`; on loop
success take the first choice's message content, and when the parsed
response has no choices return the terminal error of lines 157-159. -/
def get_llm_response (net : Nat → Option LLMChatResponse) :
    List Nat × Nat × Except String String :=
  let r := llm_retry net 50 1 500
  match r.2.2 with
  | Except.error e => (r.1, r.2.1, Except.error e)
  | Except.ok resp =>
    match resp.choices.head? with
    | some choice => (r.1, r.2.1, Except.ok choice.message.content)
    | none => (r.1, r.2.1, Except.error "No choices found in LLM response")

/-- Cached per-account record, `Account` in `src/cache.rs` lines 9-13
(`Decimal` balance modelled as `Rat`, `i64` timestamp as `Int`). -/
structure CachedAccount where
  balance : Rat
  balance_date : Int
deriving Repr, DecidableEq

/-- Embeds `Cache` from `src/cache.rs` lines 15-19; the `HashMap` becomes an
association list keyed by account id. -/
structure Cache where
  accounts : Option (List (String × CachedAccount))
  last_successful_message : Option Int
deriving Repr, DecidableEq

/-- Embeds `read_cache` from `src/cache.rs` lines 39-49.  `path_ok` models
whether `get_cache_path()` succeeds, `file` is the contents of the file
at the cache path (`none` = the file does not exist), and `parse` models
`serde_json::from_reader`.  A missing file yields `Ok(Cache::default())`,
whose derived `Default` is `none`/`none`. -/
def read_cache (path_ok : Bool) (file : Option String)
    (parse : String → Except String Cache) : Except String Cache :=
  if path_ok then
    match file with
    | none => Except.ok { accounts := none, last_successful_message := none }
    | some contents => parse contents
  else
    Except.error "cache path error"

/-- Embeds `validate_billing_period` from `src/transactions.rs` lines 84-98
(same body as `src/main.rs` lines 257-272).  `chrono::NaiveDate` is
modelled as `Int` days since an epoch, so
`end.signed_duration_since(start).num_days()` is exactly `e - start`. -/
def validate_billing_period (start e : Int) : Except String Unit :=
  if start > e then
    Except.error "Start date cannot be after end date"
  else if e - start > 90 then
    Except.error "Billing period cannot exceed 90 days"
  else
    Except.ok ()

/-- Effect events of the `main` entry point, `src/main.rs` lines 40-75. -/
inductive MainEvent where
  | fetch
deriving Repr, DecidableEq

/-- Embeds `main` from `src/main.rs` lines 40-58, up to and including the
bridge fetch: the billing period is validated on line 50 and any
`ValidationError` propagates with `?` before `get_transactions_for_period`
is called on line 53.  Later stages (LLM, SMS) read only the fetch result
and perform no fetch, so they are omitted.  Result: (events performed,
`true` iff no error was propagated). -/
def main_run (start e : Int) (fetch_ok : Bool) : List MainEvent × Bool :=
  match validate_billing_period start e with
  | Except.error _ => ([], false)
  | Except.ok _ => ([MainEvent.fetch], fetch_ok)

/-- Modelled from the spec: the `ChangeDetector` of §4.1 is not present
under `src/` (only its cached data shape, `src/cache.rs`, is).  Lookup of
an account id in the cached account map. -/
def cache_lookup (accounts : List (String × CachedAccount)) (id : String) :
    Option CachedAccount :=
  (accounts.find? (fun p => p.1 == id)).map Prod.snd

/-- Modelled from the spec: §4.1 — a currently-fetched account is
"changed" iff it is absent from `previous.accounts` (new account) or its
balance timestamp differs from the cached value; balance-value-only
differences do not count. -/
def is_changed_account (previous : Cache) (id : String) (a : CachedAccount) : Bool :=
  match cache_lookup (previous.accounts.getD []) id with
  | none => true
  | some cached => cached.balance_date != a.balance_date

/-- Modelled from the spec: §4.1 `detect` — `changed` is true iff some
fetched account is changed; the updated map carries every fetched account
over the cached entries. -/
def detect (previous : Cache) (current : List (String × CachedAccount)) :
    Bool × List (String × CachedAccount) :=
  (current.any (fun p => is_changed_account previous p.1 p.2),
   current ++ (previous.accounts.getD []).filter
     (fun p => (current.find? (fun q => q.1 == p.1)).isNone))

/-- Effect events of one pipeline run (§4.4). -/
inductive PipelineEvent where
  | fetch
  | summarize
  | dispatch
  | cacheWrite
deriving Repr, DecidableEq

/-- Modelled from the spec: the `SyncPipeline` orchestrator of §4.4 is
not present under `src/` (only `write_cache`, `src/cache.rs` lines 51-55,
is).  Stage outcomes are oracles: `validate_ok` (billing-period
validation), `fetch_ok` (bridge fetch), `changed` (ChangeDetector),
`cooldown_ok` (not within the cooldown window), `summary_ok`
(SummaryGenerator).  The run sequences
validate → fetch → detect → cooldown → summarize → dispatch → cache
write-back; a failure terminates the run at that stage, a no-change run
ends successfully without summarizing or rewriting the cache, and the
cache write happens only on the `Persisted` transition after dispatch has
been attempted.  Result: (events performed in order, `true` iff the run
succeeds). -/
def run_pipeline (validate_ok fetch_ok changed cooldown_ok summary_ok : Bool) :
    List PipelineEvent × Bool :=
  if validate_ok then
    if fetch_ok then
      if changed then
        if cooldown_ok then
          if summary_ok then
            ([PipelineEvent.fetch, PipelineEvent.summarize, PipelineEvent.dispatch,
              PipelineEvent.cacheWrite], true)
          else
            ([PipelineEvent.fetch, PipelineEvent.summarize], false)
        else
          ([PipelineEvent.fetch], false)
      else
        ([PipelineEvent.fetch], true)
    else
      ([PipelineEvent.fetch], false)
  else
    ([], false)

/-- Concrete settings with every channel configured; the ntfy topic
carries surrounding whitespace as an environment value may. -/
def settings_all : Settings :=
  { twilio_account_sid := some "sid"
    twilio_auth_token := some "tok"
    twilio_from_phone := some "+15550000000"
    twilio_to_phones := some "111,222"
    mailer_url := some "smtp://mail.example"
    mailer_from := some "from@example.com"
    mailer_to := some "to@example.com"
    ntfy_server := "https://s.example"
    ntfy_topic := some " t " }

/-- Concrete settings identical to `settings_all` except that the ntfy
channel is unconfigured. -/
def settings_no_ntfy : Settings :=
  { settings_all with ntfy_topic := none }

/-- Concrete settings identical to `settings_all` except that the ntfy
topic is present but empty, as envconfig produces from an empty
environment variable. -/
def settings_empty_ntfy : Settings :=
  { settings_all with ntfy_topic := some "" }

/-- Send oracle that fails exactly for the SMS channel. -/
def send_fail_sms : NotificationType → Bool :=
  fun c => c != NotificationType.Sms

/-- Per-recipient send oracle that fails exactly for recipient `111`. -/
def send_fail_111 : String → Bool :=
  fun p => p != "111"

/-- Per-recipient send oracle that fails exactly for recipient `222`. -/
def send_fail_222 : String → Bool :=
  fun p => p != "222"

/-- Concrete parsed LLM response whose `choices` list is empty. -/
def resp_empty : LLMChatResponse :=
  { id := "r1"
    object := "chat.completion"
    created := 0
    model := "m"
    provider := "p"
    choices := []
    usage := { completion_tokens := 0, prompt_tokens := 0, total_tokens := 0 } }

/-- Concrete choice carrying the message text `hello`. -/
def choice_hello : Choice :=
  { finish_reason := "stop"
    index := 0
    logprobs := none
    message := { content := "hello", refusal := none, role := "assistant" }
    native_finish_reason := "stop" }

/-- Concrete parsed LLM response with exactly one choice. -/
def resp_one : LLMChatResponse :=
  { resp_empty with id := "r2", choices := [choice_hello] }

/-- Concrete cache holding one account with balance 5 at timestamp 100. -/
def cache_one : Cache :=
  { accounts := some [("acct", { balance := 5, balance_date := 100 })]
    last_successful_message := none }

/-- C10: when the cache file does not exist at the computed cache path,
`read_cache` returns `Ok` with the default cache (no accounts map, no
`last_successful_message`) for every parser, indistinguishable from a
first run. -/
theorem read_cache_missing_file_is_default
    (parse : String → Except String Cache) :
    read_cache true none parse
      = Except.ok { accounts := none, last_successful_message := none } := by
  rfl

/-- Witness for C10 at a parser that would reject any contents. -/
theorem read_cache_missing_file_is_default_witness :
    read_cache true none (fun _ => Except.error "bad json")
      = Except.ok { accounts := none, last_successful_message := none } :=
  read_cache_missing_file_is_default (fun _ => Except.error "bad json")

/-- C8: `validate_billing_period start e` returns `Ok` exactly when
`start ≤ e` and `e - start ≤ 90` days, returns a `ValidationError`
otherwise, and `main` performs no bridge fetch when validation fails. -/
theorem validate_billing_period_ok_iff (start e : Int) (fetch_ok : Bool) :
    (validate_billing_period start e = Except.ok () ↔ start ≤ e ∧ e - start ≤ 90)
    ∧ (¬(start ≤ e ∧ e - start ≤ 90) →
        ∃ msg, validate_billing_period start e = Except.error msg)
    ∧ (validate_billing_period start e ≠ Except.ok () →
        (main_run start e fetch_ok).1 = []) := by
  have hv : validate_billing_period start e = Except.ok () ↔ start ≤ e ∧ e - start ≤ 90 := by
    unfold validate_billing_period
    by_cases h1 : start > e
    · simp [h1]
    · by_cases h2 : e - start > 90
      · simp [h1, h2]
        omega
      · simp [h1, h2]
        omega
  refine ⟨hv, ?_, ?_⟩
  · intro h
    cases hval : validate_billing_period start e with
    | error msg => exact ⟨msg, rfl⟩
    | ok u => exact absurd (hv.mp (by rw [hval])) h
  · intro h
    cases hval : validate_billing_period start e with
    | error msg =>
      unfold main_run
      rw [hval]
    | ok u => exact absurd (by rw [hval]) h

/-- Witness for C8 at the concrete period day 0 .. day 10. -/
theorem validate_billing_period_ok_iff_witness :
    (validate_billing_period 0 10 = Except.ok () ↔ (0 : Int) ≤ 10 ∧ (10 : Int) - 0 ≤ 90)
    ∧ (¬((0 : Int) ≤ 10 ∧ (10 : Int) - 0 ≤ 90) →
        ∃ msg, validate_billing_period 0 10 = Except.error msg)
    ∧ (validate_billing_period 0 10 ≠ Except.ok () → (main_run 0 10 true).1 = []) :=
  validate_billing_period_ok_iff 0 10 true

/-- C5: in every pipeline run the cache is written back at most once,
only after dispatch has been attempted (the dispatch event strictly
precedes the write), and a run failing at validation, fetch or summary
generation performs no cache write. -/
theorem cache_write_at_most_once_after_dispatch :
    ∀ validate_ok fetch_ok changed cooldown_ok summary_ok : Bool,
      ((run_pipeline validate_ok fetch_ok changed cooldown_ok summary_ok).1.count
          PipelineEvent.cacheWrite ≤ 1)
      ∧ (PipelineEvent.cacheWrite
            ∈ (run_pipeline validate_ok fetch_ok changed cooldown_ok summary_ok).1 →
          PipelineEvent.dispatch
              ∈ (run_pipeline validate_ok fetch_ok changed cooldown_ok summary_ok).1
            ∧ (run_pipeline validate_ok fetch_ok changed cooldown_ok summary_ok).1.indexOf
                  PipelineEvent.dispatch
                < (run_pipeline validate_ok fetch_ok changed cooldown_ok summary_ok).1.indexOf
                  PipelineEvent.cacheWrite)
      ∧ ((validate_ok = false ∨ fetch_ok = false ∨ summary_ok = false) →
          PipelineEvent.cacheWrite
            ∉ (run_pipeline validate_ok fetch_ok changed cooldown_ok summary_ok).1) := by
  decide

/-- Witness for C5 at the all-stages-succeed run. -/
theorem cache_write_at_most_once_after_dispatch_witness :
    ((run_pipeline true true true true true).1.count PipelineEvent.cacheWrite ≤ 1)
    ∧ (PipelineEvent.cacheWrite ∈ (run_pipeline true true true true true).1 →
        PipelineEvent.dispatch ∈ (run_pipeline true true true true true).1
          ∧ (run_pipeline true true true true true).1.indexOf PipelineEvent.dispatch
            < (run_pipeline true true true true true).1.indexOf PipelineEvent.cacheWrite)
    ∧ ((true = false ∨ true = false ∨ true = false) →
        PipelineEvent.cacheWrite ∉ (run_pipeline true true true true true).1) :=
  cache_write_at_most_once_after_dispatch true true true true true

/-- C6: an account whose cached entry has the same `balance_date` is never
classified as changed, for every balance value — a balance difference
without a timestamp difference does not count as changed, neither for the
per-account classifier nor for `detect` over that account. -/
theorem unchanged_timestamp_never_changed (previous : Cache) (id : String)
    (cached : CachedAccount)
    (h : cache_lookup (previous.accounts.getD []) id = some cached) :
    ∀ b : Rat,
      is_changed_account previous id { balance := b, balance_date := cached.balance_date }
          = false
      ∧ (detect previous [(id, { balance := b, balance_date := cached.balance_date })]).1
          = false := by
  intro b
  constructor
  · simp [is_changed_account, h]
  · simp [detect, is_changed_account, h]

/-- Witness for C6: cached balance 5, fetched balance 7, same timestamp. -/
theorem unchanged_timestamp_never_changed_witness :
    is_changed_account cache_one "acct" { balance := 7, balance_date := 100 } = false
    ∧ (detect cache_one [("acct", { balance := 7, balance_date := 100 })]).1 = false :=
  unchanged_timestamp_never_changed cache_one "acct"
    { balance := 5, balance_date := 100 } rfl 7

/-- Helper: a channel whose `has_*_settings` predicate is false is
recorded as skipped and dispatch proceeds with the remaining channels. -/
theorem unconfigured_channel_skipped (settings : Settings)
    (send : NotificationType → Bool) (t : NotificationType)
    (ts : List NotificationType) (h : channel_configured settings t = false) :
    dispatch_notifications settings send (t :: ts)
      = (ChannelOutcome.skipped t :: (dispatch_notifications settings send ts).1,
         (dispatch_notifications settings send ts).2) := by
  simp [dispatch_notifications, h]

/-- C7 counterexample: the ntfy topic is present but empty — one of the
channel's required settings is empty, so the claim requires the channel
to be skipped — yet `has_ntfy_settings` only tests presence, so the
predicate holds, the send is invoked, and the recorded outcome is sent,
not skipped. -/
theorem empty_setting_not_skipped_counterexample :
    settings_empty_ntfy.ntfy_topic = some ""
    ∧ has_ntfy_settings settings_empty_ntfy = true
    ∧ dispatch_notifications settings_empty_ntfy (fun _ => true)
        [NotificationType.Ntfy]
      = ([ChannelOutcome.sent NotificationType.Ntfy], true)
    ∧ ChannelOutcome.skipped NotificationType.Ntfy
        ∉ (dispatch_notifications settings_empty_ntfy (fun _ => true)
            [NotificationType.Ntfy]).1 := by
  decide

/-- C7 as amended: a requested channel with some required setting absent
(the configuration predicates test only presence — a present-but-empty
setting counts as configured) is not sent to: `dispatch_notifications`
does not invoke its send operation, records the channel as skipped, not
failed, and proceeds with the remaining channels. -/
theorem absent_setting_channel_skipped (settings : Settings)
    (send : NotificationType → Bool) (t : NotificationType)
    (ts : List NotificationType)
    (h : match t with
      | NotificationType.Ntfy => settings.ntfy_topic = none
      | NotificationType.Email =>
          settings.mailer_to = none ∨ settings.mailer_url = none
            ∨ settings.mailer_from = none
      | NotificationType.Sms =>
          settings.twilio_to_phones = none ∨ settings.twilio_account_sid = none
            ∨ settings.twilio_auth_token = none
            ∨ settings.twilio_from_phone = none) :
    dispatch_notifications settings send (t :: ts)
      = (ChannelOutcome.skipped t :: (dispatch_notifications settings send ts).1,
         (dispatch_notifications settings send ts).2) := by
  have hc : channel_configured settings t = false := by
    cases t with
    | Sms =>
      rcases h with h | h | h | h <;>
        simp [channel_configured, has_twilio_settings, h]
    | Email =>
      rcases h with h | h | h <;>
        simp [channel_configured, has_mailer_settings, h]
    | Ntfy =>
      simp [channel_configured, has_ntfy_settings, h]
  exact unconfigured_channel_skipped settings send t ts hc

/-- Witness for the amended C7: the ntfy topic is absent and the channel
is skipped while dispatch succeeds. -/
theorem absent_setting_channel_skipped_witness :
    dispatch_notifications settings_no_ntfy (fun _ => true) [NotificationType.Ntfy]
      = ([ChannelOutcome.skipped NotificationType.Ntfy], true) :=
  absent_setting_channel_skipped settings_no_ntfy (fun _ => true)
    NotificationType.Ntfy [] rfl

/-- Helper: when every recipient's send succeeds, the Twilio loop
attempts each trimmed recipient in order and returns `Ok`. -/
theorem twilio_sms_go_all_ok (send : String → Bool) (ps : List String)
    (h : ∀ p ∈ ps, send (rust_trim p) = true) :
    twilio_sms_go send ps = (ps.map rust_trim, true) := by
  induction ps with
  | nil => rfl
  | cons p ps ih =>
    have hp := h p (List.mem_cons_self p ps)
    simp [twilio_sms_go, hp, ih (fun q hq => h q (List.mem_cons_of_mem p hq))]

/-- Helper: the Twilio loop stops at the first recipient whose send
fails, after attempting every earlier recipient. -/
theorem twilio_sms_go_stops (send : String → Bool) (ps1 : List String)
    (p : String) (ps2 : List String)
    (h1 : ∀ q ∈ ps1, send (rust_trim q) = true)
    (hp : send (rust_trim p) = false) :
    twilio_sms_go send (ps1 ++ p :: ps2)
      = (ps1.map rust_trim ++ [rust_trim p], false) := by
  induction ps1 with
  | nil => simp [twilio_sms_go, hp]
  | cons a as ih =>
    have ha := h1 a (List.mem_cons_self a as)
    simp [twilio_sms_go, ha, ih (fun q hq => h1 q (List.mem_cons_of_mem a hq))]

/-- C1 counterexample: all three channels are configured and SMS comes
first; its send fails and `dispatch_notifications` returns the error at
once — the requested Email channel is never attempted, its outcome is
recorded neither as sent nor failed nor skipped. -/
theorem dispatch_channel_failure_aborts_counterexample :
    dispatch_notifications settings_all send_fail_sms
        [NotificationType.Sms, NotificationType.Email]
      = ([ChannelOutcome.failed NotificationType.Sms], false)
    ∧ ChannelOutcome.sent NotificationType.Email
        ∉ (dispatch_notifications settings_all send_fail_sms
            [NotificationType.Sms, NotificationType.Email]).1
    ∧ ChannelOutcome.failed NotificationType.Email
        ∉ (dispatch_notifications settings_all send_fail_sms
            [NotificationType.Sms, NotificationType.Email]).1
    ∧ ChannelOutcome.skipped NotificationType.Email
        ∉ (dispatch_notifications settings_all send_fail_sms
            [NotificationType.Sms, NotificationType.Email]).1 := by
  decide

/-- C1 as amended: a failing send of a configured channel makes
`dispatch_notifications` return the error immediately — channels before
the failing one get their sent/skipped outcomes, the failing channel is
the last event recorded, and no channel requested after it is
attempted. -/
theorem dispatch_stops_at_first_failed_channel (settings : Settings)
    (send : NotificationType → Bool) (ts1 : List NotificationType)
    (c : NotificationType) (ts2 : List NotificationType)
    (hc : channel_configured settings c = true) (hf : send c = false)
    (h1 : ∀ t ∈ ts1, channel_configured settings t = false ∨ send t = true) :
    dispatch_notifications settings send (ts1 ++ c :: ts2)
      = (ts1.map (fun t =>
            if channel_configured settings t then ChannelOutcome.sent t
            else ChannelOutcome.skipped t) ++ [ChannelOutcome.failed c],
         false) := by
  induction ts1 with
  | nil => simp [dispatch_notifications, hc, hf]
  | cons a as ih =>
    have ha := h1 a (List.mem_cons_self a as)
    have has : ∀ t ∈ as, channel_configured settings t = false ∨ send t = true :=
      fun t ht => h1 t (List.mem_cons_of_mem a ht)
    rcases ha with h | h
    · simp [dispatch_notifications, h, ih has]
    · by_cases hca : channel_configured settings a = true
      · simp [dispatch_notifications, hca, h, ih has]
      · have hfalse : channel_configured settings a = false := by
          revert hca
          cases channel_configured settings a <;> simp
        simp [dispatch_notifications, hfalse, ih has]

/-- Witness for the amended C1: ntfy succeeds, then SMS fails, and the
Email channel after it is not attempted. -/
theorem dispatch_stops_at_first_failed_channel_witness :
    dispatch_notifications settings_all send_fail_sms
        [NotificationType.Ntfy, NotificationType.Sms, NotificationType.Email]
      = ([ChannelOutcome.sent NotificationType.Ntfy,
          ChannelOutcome.failed NotificationType.Sms], false) :=
  dispatch_stops_at_first_failed_channel settings_all send_fail_sms
    [NotificationType.Ntfy] NotificationType.Sms [NotificationType.Email]
    (by decide) (by decide) (by decide)

/-- C4 counterexample: recipients `111,222`; the send to `111` fails and
`send_twilio_sms` returns the error at once — recipient `222` is never
attempted. -/
theorem twilio_recipient_failure_aborts_counterexample :
    send_twilio_sms settings_all send_fail_111 = some (["111"], false)
    ∧ "222" ∉ (twilio_sms_go send_fail_111 (rust_split_comma "111,222")).1 := by
  decide

/-- C4 as amended: `send_twilio_sms` attempts one physical send per
comma-separated recipient in order, but stops at the first recipient
whose send fails and returns that recipient's error; recipients after the
failing one are not attempted. -/
theorem send_twilio_sms_attempts_in_order (settings : Settings)
    (phones : String) (send : String → Bool)
    (h : settings.twilio_to_phones = some phones) :
    ((∀ p ∈ rust_split_comma phones, send (rust_trim p) = true) →
      send_twilio_sms settings send
        = some ((rust_split_comma phones).map rust_trim, true))
    ∧ (∀ ps1 p ps2, rust_split_comma phones = ps1 ++ p :: ps2 →
        (∀ q ∈ ps1, send (rust_trim q) = true) → send (rust_trim p) = false →
        send_twilio_sms settings send
          = some (ps1.map rust_trim ++ [rust_trim p], false)) := by
  constructor
  · intro hall
    unfold send_twilio_sms
    rw [h]
    show some (twilio_sms_go send (rust_split_comma phones)) = _
    rw [twilio_sms_go_all_ok send _ hall]
  · intro ps1 p ps2 hsplit hok hfail
    unfold send_twilio_sms
    rw [h]
    show some (twilio_sms_go send (rust_split_comma phones)) = _
    rw [hsplit, twilio_sms_go_stops send ps1 p ps2 hok hfail]

/-- Witness for the amended C4: the send to `111` succeeds, the send to
`222` fails, and both were attempted in order. -/
theorem send_twilio_sms_attempts_in_order_witness :
    send_twilio_sms settings_all send_fail_222 = some (["111", "222"], false) :=
  (send_twilio_sms_attempts_in_order settings_all "111,222" send_fail_222 rfl).2
    ["111"] "222" [] (by decide) (by decide) (by decide)

/-- C9 counterexample: with server `https://s.example` and configured
topic `" t "`, the Info notification is posted to `https://s.example/t`
(the trimmed topic), not to `https://s.example/ t ` as posting to `S/T`
verbatim would give. -/
theorem ntfy_topic_trimmed_counterexample :
    send_ntfy_notification settings_all NtfyNotificationType.Info
      = some "https://s.example/t"
    ∧ "https://s.example/t" ≠ "https://s.example" ++ "/" ++ " t " := by
  decide

/-- C9 as amended: with a configured topic `T`, the summary is posted to
`S/trim(T)` for Info and to `S/trim(T)-warning` for Warning, where `S` is
the configured server unless it is blank, in which case the default
`https://ntfy.sh` is used. -/
theorem send_ntfy_notification_topic_urls (settings : Settings)
    (topic : String) (h : settings.ntfy_topic = some topic) :
    send_ntfy_notification settings NtfyNotificationType.Info
      = some (effective_ntfy_server settings ++ "/" ++ rust_trim topic)
    ∧ send_ntfy_notification settings NtfyNotificationType.Warning
      = some (effective_ntfy_server settings ++ "/"
          ++ (rust_trim topic ++ "-warning")) := by
  unfold send_ntfy_notification
  rw [h]
  exact ⟨rfl, rfl⟩

/-- Witness for the amended C9 at the concrete settings. -/
theorem send_ntfy_notification_topic_urls_witness :
    send_ntfy_notification settings_all NtfyNotificationType.Info
      = some ("https://s.example" ++ "/" ++ rust_trim " t ")
    ∧ send_ntfy_notification settings_all NtfyNotificationType.Warning
      = some ("https://s.example" ++ "/" ++ (rust_trim " t " ++ "-warning")) :=
  send_ntfy_notification_topic_urls settings_all " t " rfl

/-- Helper: an attempt whose network call parses breaks the retry loop at
once. -/
theorem llm_retry_success (net : Nat → Option LLMChatResponse)
    (m a d : Nat) (resp : LLMChatResponse) (h : net a = some resp) :
    llm_retry net m a d = ([], 1, Except.ok resp) := by
  conv_lhs => rw [llm_retry.eq_def]
  rw [h]

/-- Helper: a failing attempt with the retry budget exhausted returns the
terminal error without sleeping or calling again. -/
theorem llm_retry_stop (net : Nat → Option LLMChatResponse)
    (m a d : Nat) (h : net a = none) (h2 : m ≤ a) :
    llm_retry net m a d = ([], 1, Except.error "Max retries reached") := by
  conv_lhs => rw [llm_retry.eq_def]
  rw [h, dif_pos h2]

/-- Helper: a failing attempt with budget remaining sleeps for the current
delay and retries with the delay doubled. -/
theorem llm_retry_step (net : Nat → Option LLMChatResponse)
    (m a d : Nat) (h : net a = none) (h2 : ¬ m ≤ a) :
    llm_retry net m a d
      = (d :: (llm_retry net m (a + 1) (d * 2)).1,
         (llm_retry net m (a + 1) (d * 2)).2.1 + 1,
         (llm_retry net m (a + 1) (d * 2)).2.2) := by
  conv_lhs => rw [llm_retry.eq_def]
  rw [h, dif_neg h2]

/-- Helper: when every attempt fails, the loop running from attempt `a`
with `a + k` total attempts allowed sleeps `d * 2 ^ i` for
`i = 0, …, k - 1`, makes `k + 1` network calls, and ends with the
terminal error. -/
theorem llm_retry_all_fail (net : Nat → Option LLMChatResponse)
    (hnet : ∀ n, net n = none) :
    ∀ k a d : Nat,
      llm_retry net (a + k) a d
        = ((List.range k).map (fun i => d * 2 ^ i), k + 1,
           Except.error "Max retries reached") := by
  intro k
  induction k with
  | zero =>
    intro a d
    simp only [Nat.add_zero, List.range_zero, List.map_nil]
    exact llm_retry_stop net a a d (hnet a) (Nat.le_refl a)
  | succ k ih =>
    intro a d
    rw [llm_retry_step net (a + (k + 1)) a d (hnet a) (by omega)]
    have ihv : llm_retry net (a + (k + 1)) (a + 1) (d * 2)
        = ((List.range k).map (fun i => d * 2 * 2 ^ i), k + 1,
           Except.error "Max retries reached") := by
      have hh := ih (a + 1) (d * 2)
      rw [show a + 1 + k = a + (k + 1) by omega] at hh
      exact hh
    rw [ihv]
    have hlist : (List.range (k + 1)).map (fun i => d * 2 ^ i)
        = d :: (List.range k).map (fun i => d * 2 * 2 ^ i) := by
      rw [List.range_succ_eq_map, List.map_cons, List.map_map]
      simp only [pow_zero, mul_one]
      congr 1
      apply List.map_congr_left
      intro i _
      simp only [Function.comp_apply, pow_succ]
      ring
    rw [hlist]

/-- C2: with the default policy (initial delay 500 ms, multiplier 2,
50 attempts), a run whose every attempt fails sleeps exactly
`500 * 2 ^ (n - 1)` ms after the `n`-th failed attempt for
`n = 1, …, 49`, makes exactly 50 network calls, and returns the terminal
error with no further call. -/
theorem get_llm_response_default_backoff (net : Nat → Option LLMChatResponse)
    (hnet : ∀ n, net n = none) :
    get_llm_response net
      = ((List.range 49).map (fun i => 500 * 2 ^ i), 50,
         Except.error "Max retries reached")
    ∧ ∀ n, 1 ≤ n → n ≤ 49 →
        ((get_llm_response net).1)[n - 1]? = some (500 * 2 ^ (n - 1)) := by
  have h : llm_retry net 50 1 500
      = ((List.range 49).map (fun i => 500 * 2 ^ i), 50,
         Except.error "Max retries reached") :=
    llm_retry_all_fail net hnet 49 1 500
  have hmain : get_llm_response net
      = ((List.range 49).map (fun i => 500 * 2 ^ i), 50,
         Except.error "Max retries reached") := by
    unfold get_llm_response
    rw [h]
  refine ⟨hmain, ?_⟩
  intro n h1 h2
  rw [hmain]
  rw [List.getElem?_map, List.getElem?_range (by omega : n - 1 < 49)]
  rfl

/-- Witness for C2: every attempt fails, and (as one instance of the
delay law) the third sleep is 2000 ms. -/
theorem get_llm_response_default_backoff_witness :
    get_llm_response (fun _ => none)
      = ((List.range 49).map (fun i => 500 * 2 ^ i), 50,
         Except.error "Max retries reached")
    ∧ ((get_llm_response (fun _ => none)).1)[2]? = some 2000 :=
  ⟨(get_llm_response_default_backoff (fun _ => none) (fun _ => rfl)).1,
   (get_llm_response_default_backoff (fun _ => none) (fun _ => rfl)).2 3
     (by decide) (by decide)⟩

/-- C3 counterexample: the very first attempt returns a response that
parses with an empty `choices` list; `get_llm_response` performs no sleep
and no second network call — it returns the terminal "no choices" error
instead of treating the response as a parse failure and retrying. -/
theorem llm_empty_choices_terminal_counterexample :
    get_llm_response (fun _ => some resp_empty)
      = ([], 1, Except.error "No choices found in LLM response") := by
  have h : llm_retry (fun _ => some resp_empty) 50 1 500
      = ([], 1, Except.ok resp_empty) :=
    llm_retry_success _ 50 1 500 resp_empty rfl
  unfold get_llm_response
  rw [h]
  rfl

/-- C3 as amended: on a response that parses, the retry loop ends; the
content of the first choice is returned when one exists, and a parsed
response with no choices at all yields the terminal "no choices" error
with no retry attempt consumed. -/
theorem llm_first_choice_or_terminal (net : Nat → Option LLMChatResponse)
    (s : List Nat) (n : Nat) (resp : LLMChatResponse)
    (h : llm_retry net 50 1 500 = (s, n, Except.ok resp)) :
    (∀ c cs, resp.choices = c :: cs →
      get_llm_response net = (s, n, Except.ok c.message.content))
    ∧ (resp.choices = [] →
      get_llm_response net
        = (s, n, Except.error "No choices found in LLM response")) := by
  constructor
  · intro c cs hc
    unfold get_llm_response
    rw [h]
    simp [hc]
  · intro hc
    unfold get_llm_response
    rw [h]
    simp [hc]

/-- Witness for the amended C3: a one-choice response returns its
content after one network call and no sleeps. -/
theorem llm_first_choice_or_terminal_witness :
    get_llm_response (fun _ => some resp_one) = ([], 1, Except.ok "hello") :=
  (llm_first_choice_or_terminal (fun _ => some resp_one) [] 1 resp_one
    (llm_retry_success _ 50 1 500 resp_one rfl)).1 choice_hello [] rfl

end FinanceTracker
